import Mathlib

/-!
Verification of the StreamFlow timelock client library against its design
specification.  The TypeScript sources are shallowly embedded: JavaScript
`number` and BigNumber arithmetic is modelled over `ℚ` (exact rational
arithmetic; every finite IEEE-754 double is a rational, and every concrete
input used in a counterexample or witness below is chosen so that the
double operations of the source compute exactly), BN / on-chain `u64`
amounts are modelled over `ℕ`, fallible code over `Except`, and the
asynchronous batch-submission pipeline as an explicit schedule of
submission phases.
-/

/- ### AmountConverter (`getBN`, `getNumberFromBN`) -/

/-- Model of JavaScript `Math.trunc`: rounds toward zero. -/
def jsTrunc (q : ℚ) : ℤ :=
  if 0 ≤ q then ⌊q⌋ else ⌈q⌉

/-- Model of JavaScript `Math.round`: nearest integer, half away from zero
is not needed here; we use the half-up convention of `Math.round`. -/
def jsRound (q : ℚ) : ℤ :=
  ⌊q + 1 / 2⌋

/-- Embedding of `getBN` from the utils module, line for line:
`decimalPart = value - Math.trunc(value)`;
`integerPart = BigNumber(Math.trunc(value))`;
`decimalE = BigNumber(decimalPart * 1e9)` — note the source performs a plain
numeric multiplication and wraps the result, it does NOT round it to an
integer; `sum = integerPart.times(1e9).plus(decimalE)`;
`resultE = sum.times(BigNumber(10).pow(decimals))`; result `resultE.div(1e9)`.
The exponent is an `ℤ` because the source performs no sign check on
`decimals`.  JavaScript double arithmetic is modelled as exact rational
arithmetic. -/
def getBN (value : ℚ) (decimals : ℤ) : ℚ :=
  let decimalPart : ℚ := value - (jsTrunc value : ℚ)
  let integerPart : ℚ := (jsTrunc value : ℚ)
  let decimalE : ℚ := decimalPart * 1000000000
  let sum : ℚ := integerPart * 1000000000 + decimalE
  let resultE : ℚ := sum * (10 : ℚ) ^ decimals
  resultE / 1000000000

/-- Definition following the SPEC's words for `toSmallestUnits` (for
comparison with `getBN`): "Scale the fractional part by a fixed intermediate
factor (1e9) and round to an integer (nano-units), combine as
`integerPart * 1e9 + fractionalNanoUnits`, then multiply by `10^decimals`
and divide by `1e9`". -/
def specToSmallestUnits (value : ℚ) (decimals : ℤ) : ℚ :=
  ((jsTrunc value : ℚ) * 1000000000 +
      (jsRound ((value - (jsTrunc value : ℚ)) * 1000000000) : ℚ)) *
    (10 : ℚ) ^ decimals / 1000000000

/-- Definition following the SPEC's words for the claimed failure mode of
`getBN`: "`decimals < 0` or non-finite `value` → `InvalidArgument`" (the
non-finite case is outside the rational model; the `decimals < 0` case is
what the counterexample uses). -/
def specGetBNChecked (value : ℚ) (decimals : ℤ) : Except String ℚ :=
  if decimals < 0 then Except.error "InvalidArgument"
  else Except.ok (getBN value decimals)

/-- Embedding of `getNumberFromBN` from the utils module: a guarded branch
on `value > 2^53 - 1`; the large branch divides the BigNumber by
`10^decimals` before converting, the small branch converts first and divides
as doubles.  In the exact rational model both conversions are exact, so both
branches are the same division; the branch structure is kept to mirror the
source. -/
def getNumberFromBN (value : ℚ) (decimals : ℕ) : ℚ :=
  if value > 2 ^ 53 - 1 then value / 10 ^ decimals
  else value / 10 ^ decimals

/-- Helper: in exact arithmetic `getBN` is exactly the scaling by
`10 ^ decimals`; no rounding step ever occurs. -/
theorem getBN_eq_scale (value : ℚ) (decimals : ℤ) :
    getBN value decimals = value * (10 : ℚ) ^ decimals := by
  unfold getBN
  field_simp
  ring

/-- C1 counterexample: at `value = 1 / 1024` (an exactly representable
double whose double product with `1e9` — `976562.5` — is also exact) and
`decimals = 0`, `getBN` disagrees with the spec's formula
`(trunc(value) * 10^9 + round(frac(value) * 10^9)) * 10^decimals / 10^9`,
and the returned result is not an integer (a rational is an integer exactly
when its fractional part `Int.fract` is zero): the fractional nano-units are
never rounded. -/
theorem getBN_rounding_counterexample :
    getBN (1 / 1024) 0 ≠ specToSmallestUnits (1 / 1024) 0 ∧
      Int.fract (getBN (1 / 1024) 0) ≠ 0 := by
  have htr : jsTrunc ((1 : ℚ) / 1024) = 0 := by
    norm_num [jsTrunc]
  have hrd : jsRound (((1 : ℚ) / 1024 - (0 : ℤ)) * 1000000000) = 976563 := by
    norm_num [jsRound]
  have hbn : getBN (1 / 1024) 0 = 1 / 1024 := by
    rw [getBN_eq_scale]; norm_num
  have hspec : specToSmallestUnits (1 / 1024) 0 = 976563 / 1000000000 := by
    unfold specToSmallestUnits
    norm_num [htr] at hrd ⊢
    rw [hrd]
    norm_num
  constructor
  · rw [hbn, hspec]; norm_num
  · rw [hbn, Int.fract]; norm_num

/-- C1 (amended): for every value and every `decimals ≥ 0`, `getBN`
computes `(trunc(value) * 10^9 + frac(value) * 10^9) * 10^decimals / 10^9 =
value * 10^decimals` — the fractional nano-units are carried exactly, never
rounded to an integer, and the result is an integer only when
`value * 10^decimals` is. -/
theorem getBN_no_rounding (value : ℚ) (decimals : ℕ) :
    getBN value (decimals : ℤ) = value * 10 ^ decimals := by
  rw [getBN_eq_scale, zpow_natCast]

/-- C6 counterexample: at `value = 1`, `decimals = -1` the source `getBN`
performs no validation and computes the value `1 / 10`, while the spec's
checked contract demands an `InvalidArgument` failure there. -/
theorem getBN_validation_counterexample :
    getBN 1 (-1) = (1 : ℚ) / 10 ∧
      specGetBNChecked 1 (-1) = Except.error "InvalidArgument" := by
  refine ⟨?_, rfl⟩
  rw [getBN_eq_scale]
  norm_num

/-- C6 (amended): `getBN` has no failure mode at all — even for
`decimals < 0` it silently returns the scaled value rather than raising
`InvalidArgument`; it is a pure total function of its two arguments. -/
theorem getBN_total_on_negative_decimals (value : ℚ) (decimals : ℤ)
    (h : decimals < 0) : getBN value decimals = value * (10 : ℚ) ^ decimals := by
  exact getBN_eq_scale value decimals

/-- Witness for `getBN_total_on_negative_decimals` at `value = 1`,
`decimals = -1`. -/
theorem getBN_total_on_negative_decimals_witness :
    (-1 : ℤ) < 0 ∧ getBN 1 (-1) = (1 : ℚ) * (10 : ℚ) ^ (-1 : ℤ) :=
  ⟨by decide, getBN_total_on_negative_decimals 1 (-1) (by decide)⟩

/-- C7: the round trip `getNumberFromBN (getBN v d) d` reproduces `v`
within `1e-9` relative error for every `decimals ∈ [0, 18]` (in the exact
rational model the round trip is exact, hence within any tolerance). -/
theorem getBN_roundtrip (v : ℚ) (d : ℕ) (hd : d ≤ 18) :
    |getNumberFromBN (getBN v d) d - v| ≤ 1 / 10 ^ 9 * |v| := by
  have hpow : (10 : ℚ) ^ d ≠ 0 := by positivity
  have h : getNumberFromBN (getBN v d) d = v := by
    rw [getBN_no_rounding]
    unfold getNumberFromBN
    split <;> exact mul_div_cancel_right₀ v hpow
  rw [h, sub_self, abs_zero]
  positivity

/-- Witness for `getBN_roundtrip` at `v = 3 / 2`, `d = 9`. -/
theorem getBN_roundtrip_witness :
    (9 : ℕ) ≤ 18 ∧
      |getNumberFromBN (getBN (3 / 2) 9) 9 - 3 / 2| ≤ 1 / 10 ^ 9 * |(3 / 2 : ℚ)| :=
  ⟨by decide, getBN_roundtrip (3 / 2) 9 (by decide)⟩

/- ### ErrorWrapper (`handleContractError`) -/

/-- Model of a JavaScript `Error` value (the original message/stack is
abstracted to one string payload). -/
structure JsError where
  message : String
deriving DecidableEq

/-- Model of the `ContractError` class ("Modelled from the spec": the class
body lives in the types module that is not among the sources; per §4.4 it
carries the original error and an optional caller-supplied error-code
string). -/
structure ContractError where
  original : JsError
  code : Option String
deriving DecidableEq

/-- JavaScript throwable values: an `Error` instance or any other value. -/
inductive Thrown (V : Type) where
  | jsError (err : JsError)
  | other (value : V)
deriving DecidableEq

/-- What `handleContractError` can throw: a `ContractError`, or the
original non-`Error` value rethrown unwrapped. -/
inductive WrappedThrown (V : Type) where
  | contractError (e : ContractError)
  | raw (value : V)
deriving DecidableEq

/-- Embedding of `handleContractError` from the utils module: the settled
outcome of `func()` is the `Except` argument; the `try`/`catch` with the
`instanceof Error` test and the optional `callback` dispatch is the match
below, mirroring the source line for line. -/
def handleContractError {T V : Type} (func : Except (Thrown V) T)
    (callback : Option (JsError → Option String)) : Except (WrappedThrown V) T :=
  match func with
  | Except.ok value => Except.ok value
  | Except.error (Thrown.jsError err) =>
    match callback with
    | some cb => Except.error (WrappedThrown.contractError ⟨err, cb err⟩)
    | none => Except.error (WrappedThrown.contractError ⟨err, none⟩)
  | Except.error (Thrown.other v) => Except.error (WrappedThrown.raw v)

/-- C5: `handleContractError` forwards success unchanged; an `Error`
rejection is wrapped into a `ContractError` carrying the code returned by
the `extractCode` callback when one is supplied (and no code otherwise);
a non-`Error` rejection is rethrown unwrapped. -/
theorem handleContractError_spec {T V : Type} (func : Except (Thrown V) T)
    (callback : Option (JsError → Option String)) :
    (∀ t, func = Except.ok t → handleContractError func callback = Except.ok t) ∧
      (∀ err cb, callback = some cb → func = Except.error (Thrown.jsError err) →
        handleContractError func callback =
          Except.error (WrappedThrown.contractError ⟨err, cb err⟩)) ∧
      (∀ err, callback = none → func = Except.error (Thrown.jsError err) →
        handleContractError func callback =
          Except.error (WrappedThrown.contractError ⟨err, none⟩)) ∧
      (∀ v, func = Except.error (Thrown.other v) →
        handleContractError func callback = Except.error (WrappedThrown.raw v)) := by
  refine ⟨?_, ?_, ?_, ?_⟩
  · intro t ht; subst ht; rfl
  · intro err cb hcb hf; subst hcb; subst hf; rfl
  · intro err hcb hf; subst hcb; subst hf; rfl
  · intro v hf; subst hf; rfl

/-- Witness for `handleContractError_spec`: a concrete `Error` rejection
with a supplied code extractor is wrapped with the extracted code. -/
theorem handleContractError_spec_witness :
    (some (fun e : JsError => some e.message) =
        some (fun e : JsError => some e.message)) ∧
      handleContractError (T := Nat) (V := Nat)
          (Except.error (Thrown.jsError ⟨"boom"⟩))
          (some (fun e => some e.message)) =
        Except.error (WrappedThrown.contractError ⟨⟨"boom"⟩, some "boom"⟩) :=
  ⟨rfl,
    (handleContractError_spec (Except.error (Thrown.jsError ⟨"boom"⟩))
          (some (fun e => some e.message))).2.1
      ⟨"boom"⟩ (fun e => some e.message) rfl rfl⟩

/- ### BatchOrchestrator (`createMultiple`) -/

/-- Model of a `BatchItemSuccess`: the fulfilled value of one submission
("Modelled from the spec" for the shape: the solana types module is not
among the sources; per §4.6 a fulfilled submission contributes its
transaction signature). -/
structure BatchItemSuccess where
  recipient : String
  signature : String
deriving DecidableEq

/-- Model of a `BatchItemError`: the rejection reason of one submission
("Modelled from the spec" for the shape: per §4.6 a rejected submission
contributes its error paired with which recipient failed). -/
structure BatchItemError where
  recipient : String
  error : String
deriving DecidableEq

/-- Settled outcome of one `sendAndConfirmStreamRawTransaction` call, as
observed by `Promise.allSettled`. -/
inductive SubmitOutcome where
  | fulfilled (value : BatchItemSuccess)
  | rejected (reason : BatchItemError)
deriving DecidableEq

/-- Model of a `BatchItem`: one prepared transaction paired with the
recipient address it was built for. -/
structure BatchItem (Tx : Type) where
  tx : Tx
  recipient : String
deriving DecidableEq

/-- Embedding of the fulfilled-filter of `createMultiple` (lines 464-466):
`responses.filter(el => el.status === "fulfilled").map(el => el.value)`. -/
def settledSuccesses (responses : List SubmitOutcome) : List BatchItemSuccess :=
  responses.filterMap fun r =>
    match r with
    | SubmitOutcome.fulfilled s => some s
    | SubmitOutcome.rejected _ => none

/-- Embedding of the rejected-filter of `createMultiple` (lines 469-471):
`responses.filter(el => el.status === "rejected").map(el => el.reason)`. -/
def settledFailures (responses : List SubmitOutcome) : List BatchItemError :=
  responses.filterMap fun r =>
    match r with
    | SubmitOutcome.fulfilled _ => none
    | SubmitOutcome.rejected e => some e

/-- Result shape of the submission phase of `createMultiple` (the
`metadatas` and `metadataToRecipient` components are independent of the
submission outcomes and omitted). -/
structure CreateMultiResponse where
  txs : List String
  errors : List BatchItemError
deriving DecidableEq

/-- Embedding of the concurrent submission phase of `createMultiple`
(lines 458-474): every signed batch item is submitted, the settled results
are partitioned, fulfilled values contribute their signatures and rejected
reasons are collected as errors; the function returns normally in every
case.  The per-item settled outcome is supplied by `send`, the model of the
external `sendAndConfirmStreamRawTransaction`. -/
def createMultipleSubmitPhase {Tx : Type} (signedBatch : List (BatchItem Tx))
    (send : BatchItem Tx → SubmitOutcome) : CreateMultiResponse :=
  let responses := signedBatch.map send
  let successes := settledSuccesses responses
  let signatures := successes.map fun s => s.signature
  let failures := settledFailures responses
  { txs := signatures, errors := failures }

/-- C3: once concurrent submission has begun, each item's contribution to
the result depends only on its own settled outcome: every fulfilled
submission's signature appears in `txs` and every rejected submission's
error appears in `errors`, whatever the outcomes of the sibling items; a
partially failed batch is an ordinary return value, never a thrown
failure. -/
theorem createMultiple_isolates_failures {Tx : Type}
    (signedBatch : List (BatchItem Tx)) (send : BatchItem Tx → SubmitOutcome)
    (item : BatchItem Tx) (hmem : item ∈ signedBatch) :
    (∀ s, send item = SubmitOutcome.fulfilled s →
        s.signature ∈ (createMultipleSubmitPhase signedBatch send).txs) ∧
      (∀ e, send item = SubmitOutcome.rejected e →
        e ∈ (createMultipleSubmitPhase signedBatch send).errors) := by
  constructor
  · intro s hs
    refine List.mem_map.mpr ⟨s, ?_, rfl⟩
    refine List.mem_filterMap.mpr ⟨send item, ?_, ?_⟩
    · exact List.mem_map_of_mem send hmem
    · rw [hs]
  · intro e he
    refine List.mem_filterMap.mpr ⟨send item, ?_, ?_⟩
    · exact List.mem_map_of_mem send hmem
    · rw [he]

/-- Concrete five-recipient batch from the spec's test scenario (§8). -/
def fiveBatch : List (BatchItem Nat) :=
  [⟨0, "r1"⟩, ⟨0, "r2"⟩, ⟨0, "r3"⟩, ⟨0, "r4"⟩, ⟨0, "r5"⟩]

/-- Deterministic outcome assignment that fails exactly the third item. -/
def failThird (item : BatchItem Nat) : SubmitOutcome :=
  if item.recipient = "r3" then SubmitOutcome.rejected ⟨"r3", "submission failed"⟩
  else SubmitOutcome.fulfilled ⟨item.recipient, item.recipient⟩

/-- Witness for `createMultiple_isolates_failures`: in the five-recipient
batch where item 3 fails deterministically, item 3's error (keyed to
recipient 3) is collected in `errors`. -/
theorem createMultiple_isolates_failures_witness :
    (⟨0, "r3"⟩ : BatchItem Nat) ∈ fiveBatch ∧
      (⟨"r3", "submission failed"⟩ : BatchItemError) ∈
        (createMultipleSubmitPhase fiveBatch failThird).errors :=
  ⟨by decide,
    (createMultiple_isolates_failures fiveBatch failThird ⟨0, "r3"⟩
          (by decide)).2
      ⟨"r3", "submission failed"⟩ (by decide)⟩

/-- One recipient entry of `createMultiple` (the fields
`prepareStreamTransaction` reads from it). -/
structure RecipientData where
  recipient : String
  amount : ℕ
  amountPerPeriod : ℕ
  cliffAmount : ℕ
  name : String
deriving DecidableEq

/-- Solana transactions of the `createMultiple` batch, identified by their
payload: one stream-creation transaction per recipient entry, or the single
wrap transaction produced from `prepareWrappedAccount` ("Modelled from the
spec" for the wrap payload: `prepareWrappedAccount` lives in the utils
module not among the sources; per §4.6 step 2 it is sized to the given
amount for the given owner). -/
inductive SolTx where
  | creation (recipient : String) (amount : ℕ) (amountPerPeriod : ℕ)
      (cliffAmount : ℕ)
  | wrap (owner : String) (amount : ℕ)
deriving DecidableEq

/-- Embedding of the per-recipient step of the `createMultiple` loop
(lines 412-423): `prepareStreamTransaction` builds one creation transaction
from the recipient entry, and the batch item pairs it with that entry's
recipient address. -/
def prepareStreamTx (r : RecipientData) : BatchItem SolTx :=
  ⟨SolTx.creation r.recipient r.amount r.amountPerPeriod r.cliffAmount,
    r.recipient⟩

/-- Embedding of the wrap-amount computation (lines 426-429):
`recipients.reduce((acc, recipient) => recipient.amount.add(acc), new BN(0))`. -/
def totalDeposited (recipients : List RecipientData) : ℕ :=
  recipients.foldl (fun acc r => r.amount + acc) 0

/-- Embedding of the batch construction of `createMultiple` (lines
406-446): the loop pushes one creation item per recipient, then, when
`isNative`, one wrap transaction sized to the total deposited amount and
tagged with the sender's own address is pushed last. -/
def buildBatch (recipients : List RecipientData) (sender : String)
    (isNative : Bool) : List (BatchItem SolTx) :=
  let base := recipients.map prepareStreamTx
  if isNative then
    base ++ [⟨SolTx.wrap sender (totalDeposited recipients), sender⟩]
  else base

/-- Modelled from the spec: `signAllTransactionWithRecipients` (utils
module, not among the sources) passes the full ordered batch to a single
sign-all call (§4.6 step 3), preserving the items and their order; the
signing itself is external and does not change the batch structure. -/
def signAllTransactionWithRecipients (batch : List (BatchItem SolTx)) :
    List (BatchItem SolTx) :=
  batch

/-- Phases of the submission pipeline of `createMultiple`: a transaction
submitted and confirmed alone (`await` on a single call), or a set of
transactions submitted concurrently with no relative order
(`Promise.allSettled` over all of them). -/
inductive SubmitPhase where
  | sequential (item : BatchItem SolTx)
  | concurrent (items : List (BatchItem SolTx))
deriving DecidableEq

/-- Embedding of the submission ordering of `createMultiple` (lines
448-462): after the single sign-all call, when `isNative` the last batch
item is popped (`signed_batch.pop()`) and submitted and confirmed alone
before anything else; the remaining items are then submitted concurrently.
The `none` arm of the pop is unreachable when `isNative` because the wrap
transaction was appended to the batch. -/
def createMultipleSchedule (recipients : List RecipientData) (sender : String)
    (isNative : Bool) : List SubmitPhase :=
  let batch := buildBatch recipients sender isNative
  let signedBatch := signAllTransactionWithRecipients batch
  if isNative then
    match signedBatch.getLast? with
    | some prepareTx =>
      [SubmitPhase.sequential prepareTx,
        SubmitPhase.concurrent signedBatch.dropLast]
    | none => [SubmitPhase.concurrent signedBatch]
  else [SubmitPhase.concurrent signedBatch]

/-- Recognizer for wrap transactions in a batch item. -/
def isWrapItem (item : BatchItem SolTx) : Bool :=
  match item.tx with
  | SolTx.wrap _ _ => true
  | SolTx.creation _ _ _ _ => false

/-- C4: with `isNative = true`, exactly one wrap transaction — sized to the
sum of all recipients' deposited amounts and tagged with the sender's own
address — is appended to the batch; the schedule submits and confirms it
alone, strictly before the concurrent phase containing exactly the
stream-creation transactions (none of which is a wrap). -/
theorem createMultiple_wrap_confirmed_first (recipients : List RecipientData)
    (sender : String) :
    createMultipleSchedule recipients sender true =
        [SubmitPhase.sequential
            ⟨SolTx.wrap sender (totalDeposited recipients), sender⟩,
          SubmitPhase.concurrent (recipients.map prepareStreamTx)] ∧
      (buildBatch recipients sender true).countP isWrapItem = 1 ∧
      (recipients.map prepareStreamTx).all (fun item => !isWrapItem item) = true := by
  refine ⟨?_, ?_, ?_⟩
  · unfold createMultipleSchedule signAllTransactionWithRecipients buildBatch
    simp [List.getLast?_concat, List.dropLast_concat]
  · unfold buildBatch
    rw [if_pos rfl, List.countP_append, List.countP_map]
    have h0 : List.countP (isWrapItem ∘ prepareStreamTx) recipients = 0 := by
      apply List.countP_eq_zero.mpr
      intro r _
      simp [Function.comp, isWrapItem, prepareStreamTx]
    rw [h0]
    rfl
  · apply List.all_eq_true.mpr
    intro item hitem
    obtain ⟨r, _, rfl⟩ := List.mem_map.mp hitem
    simp [isWrapItem, prepareStreamTx]

/- ### StreamClientFacade `get` (direction `all`) -/

/-- Modelled from the spec: the decoded Solana `Contract` record (the
solana types module is not among the sources).  Per the §3 data model the
schedule carries a field named `start` (and the post-decode type filter
reads `canTopup`); no `startTime` field exists anywhere in the data model,
so we keep exactly those two fields the `get` path reads. -/
structure SolanaContract where
  start : ℕ
  canTopup : Bool
deriving DecidableEq

/-- Embedding of one JavaScript object assignment
`streams = { ...streams, [pubkey]: decoded }` on a string-keyed object
whose keys are base58 addresses (non-index keys): an existing key keeps its
original insertion position and gets the new value, a new key is appended
last. -/
def objAssign (m : List (String × SolanaContract)) (k : String)
    (v : SolanaContract) : List (String × SolanaContract) :=
  if m.any (fun p => p.1 == k) then
    m.map (fun p => if p.1 == k then (k, v) else p)
  else m ++ [(k, v)]

/-- Embedding of the accumulation loop of `get` (lines 760-765): each
fetched account is decoded and written into the `streams` object under its
address. -/
def accumulateStreams (accounts : List (String × SolanaContract)) :
    List (String × SolanaContract) :=
  accounts.foldl (fun m a => objAssign m a.1 a.2) []

/-- Modelled from ECMAScript sort semantics: the source comparator
`([, stream1], [, stream2]) => stream2.startTime - stream1.startTime` reads
a `startTime` property that the decoded Stream record does not define (§3
names the field `start`), so it evaluates `undefined - undefined = NaN`,
and `Array.prototype.sort` treats a `NaN` comparator result as `+0`.  The
comparator is therefore the constant `0`. -/
def startTimeComparator (_e1 _e2 : String × SolanaContract) : Int := 0

/-- Stable insertion step: `x` is placed before the first element it must
precede, after all elements comparing equal (ECMAScript sort is stable). -/
def insertStable {α : Type} (cmp : α → α → Int) (x : α) : List α → List α
  | [] => [x]
  | y :: ys => if cmp x y < 0 then x :: y :: ys else y :: insertStable cmp x ys

/-- Stable comparator sort modelling `Array.prototype.sort`. -/
def jsSort {α : Type} (cmp : α → α → Int) (l : List α) : List α :=
  l.foldl (fun acc x => insertStable cmp x acc) []

/-- Source `StreamType` filter values. -/
inductive StreamTypeFilter where
  | all
  | stream
  | vesting
deriving DecidableEq

/-- Embedding of `get` for `direction = "all"` (lines 740-776): the
sender-indexed and recipient-indexed lookups are concatenated, accumulated
into the address-keyed `streams` object, sorted with the `startTime`
comparator, and post-filtered on `canTopup` according to `type`. -/
def getDirectionAll (outgoing incoming : List (String × SolanaContract))
    (type : StreamTypeFilter) : List (String × SolanaContract) :=
  let accounts := outgoing ++ incoming
  let streams := accumulateStreams accounts
  let sortedStreams := jsSort startTimeComparator streams
  match type with
  | StreamTypeFilter.all => sortedStreams
  | StreamTypeFilter.stream => sortedStreams.filter (fun e => e.2.canTopup)
  | StreamTypeFilter.vesting => sortedStreams.filter (fun e => !e.2.canTopup)

/-- Number of entries of the result carrying a given address. -/
def keyCount (l : List (String × SolanaContract)) (k : String) : ℕ :=
  l.countP (fun p => p.1 == k)

/-- Decidable check that a result list is sorted by `start` descending. -/
def descByStart : List (String × SolanaContract) → Bool
  | [] => true
  | [_] => true
  | a :: b :: rest => decide (b.2.start ≤ a.2.start) && descByStart (b :: rest)

/-- Helper: the stable insertion step with the constant-zero comparator
appends at the end. -/
theorem insertStable_const_zero (x : String × SolanaContract)
    (l : List (String × SolanaContract)) :
    insertStable startTimeComparator x l = l ++ [x] := by
  induction l with
  | nil => rfl
  | cons y ys ih =>
    unfold insertStable
    rw [if_neg (by simp [startTimeComparator])]
    rw [ih]
    rfl

/-- Helper: the `startTime` sort never reorders. -/
theorem jsSort_const_zero (l : List (String × SolanaContract)) :
    jsSort startTimeComparator l = l := by
  unfold jsSort
  suffices h : ∀ acc : List (String × SolanaContract),
      l.foldl (fun acc x => insertStable startTimeComparator x acc) acc = acc ++ l by
    simpa using h []
  induction l with
  | nil => intro acc; simp
  | cons x xs ih =>
    intro acc
    simp only [List.foldl_cons]
    rw [insertStable_const_zero, ih]
    simp

/-- Helper: assigning under a key different from `k` does not change the
number of `k`-entries. -/
theorem keyCount_objAssign_ne (m : List (String × SolanaContract))
    (a : String × SolanaContract) (k : String) (h : a.1 ≠ k) :
    keyCount (objAssign m a.1 a.2) k = keyCount m k := by
  unfold objAssign keyCount
  split
  · rw [List.countP_map]
    apply List.countP_congr
    intro x _
    by_cases hx : x.1 = a.1
    · simp [Function.comp, hx, h, Ne.symm h]
    · simp [Function.comp, hx]
  · simp [List.countP_append, List.countP_cons, h]

/-- Helper: assigning under key `a.1` leaves exactly one `a.1`-entry,
provided the object was key-unique there. -/
theorem keyCount_objAssign_eq (m : List (String × SolanaContract))
    (a : String × SolanaContract) (h : keyCount m a.1 ≤ 1) :
    keyCount (objAssign m a.1 a.2) a.1 = 1 := by
  unfold objAssign keyCount
  split
  case isTrue hany =>
    rw [List.countP_map]
    have hcongr : List.countP
        ((fun p : String × SolanaContract => p.1 == a.1) ∘ fun p =>
          if p.1 == a.1 then (a.1, a.2) else p) m =
        List.countP (fun p : String × SolanaContract => p.1 == a.1) m := by
      apply List.countP_congr
      intro x _
      by_cases hx : x.1 = a.1
      · simp [Function.comp, hx]
      · simp [Function.comp, hx]
    rw [hcongr]
    have hpos : 0 < List.countP (fun p : String × SolanaContract => p.1 == a.1) m := by
      rw [List.countP_pos]
      obtain ⟨x, hmem, hx⟩ := List.any_eq_true.mp hany
      exact ⟨x, hmem, hx⟩
    unfold keyCount at h
    omega
  case isFalse hany =>
    have hz : List.countP (fun p : String × SolanaContract => p.1 == a.1) m = 0 := by
      apply List.countP_eq_zero.mpr
      intro x hmem
      intro hx
      exact hany (List.any_eq_true.mpr ⟨x, hmem, hx⟩)
    simp [List.countP_append, List.countP_cons, hz]

/-- Helper: one object assignment preserves key-uniqueness. -/
theorem keyCount_objAssign_le (m : List (String × SolanaContract))
    (a : String × SolanaContract) (k : String) (h : keyCount m k ≤ 1) :
    keyCount (objAssign m a.1 a.2) k ≤ 1 := by
  by_cases hk : a.1 = k
  · subst hk
    exact Nat.le_of_eq (keyCount_objAssign_eq m a h)
  · rw [keyCount_objAssign_ne m a k hk]
    exact h

/-- Helper: folding the accumulation loop over any key-unique object
yields exactly one entry for every key present in the processed accounts
and leaves absent keys untouched. -/
theorem foldl_objAssign_keyCount (accounts : List (String × SolanaContract)) :
    ∀ (m : List (String × SolanaContract)), (∀ j, keyCount m j ≤ 1) →
      ∀ k, keyCount (accounts.foldl (fun acc a => objAssign acc a.1 a.2) m) k =
        if accounts.any (fun p => p.1 == k) then 1 else keyCount m k := by
  induction accounts with
  | nil =>
    intro m _ k
    simp
  | cons a as ih =>
    intro m hm k
    simp only [List.foldl_cons, List.any_cons]
    rw [ih (objAssign m a.1 a.2) (fun j => keyCount_objAssign_le m a j (hm j)) k]
    by_cases hak : a.1 = k
    · have h1 : (a.1 == k) = true := beq_iff_eq.mpr hak
      by_cases has : as.any (fun p => p.1 == k) = true
      · simp [has, h1]
      · have heq : keyCount (objAssign m a.1 a.2) k = 1 := by
          subst hak
          exact keyCount_objAssign_eq m a (hm a.1)
        simp [has, h1, heq]
    · have h1 : (a.1 == k) = false := by simp [hak]
      by_cases has : as.any (fun p => p.1 == k) = true
      · simp [has]
      · simp [has, h1, keyCount_objAssign_ne m a k hak]

/-- C2 (amended): `get` with direction `all` concatenates the
sender-indexed and recipient-indexed lookups but accumulates them into an
object keyed by stream address, so the result is key-unique — a self-stream
sent to oneself appears exactly once, the union IS de-duplicated — and the
entries come back in first-insertion order (the `startTime` comparator
reads an undefined property, compares everything equal, and never
reorders), not in general sorted by `start` descending. -/
theorem get_direction_all_dedups
    (outgoing incoming : List (String × SolanaContract)) :
    getDirectionAll outgoing incoming StreamTypeFilter.all =
        accumulateStreams (outgoing ++ incoming) ∧
      (∀ k, keyCount
        (getDirectionAll outgoing incoming StreamTypeFilter.all) k ≤ 1) ∧
      (∀ k v, (k, v) ∈ outgoing ++ incoming →
        keyCount (getDirectionAll outgoing incoming StreamTypeFilter.all) k = 1) := by
  have hbase : ∀ j, keyCount ([] : List (String × SolanaContract)) j ≤ 1 := by
    intro j
    simp [keyCount]
  have hsort : getDirectionAll outgoing incoming StreamTypeFilter.all =
      accumulateStreams (outgoing ++ incoming) := by
    unfold getDirectionAll
    exact jsSort_const_zero _
  refine ⟨hsort, ?_, ?_⟩
  · intro k
    rw [hsort]
    unfold accumulateStreams
    rw [foldl_objAssign_keyCount (outgoing ++ incoming) [] hbase k]
    split <;> simp [keyCount]
  · intro k v hmem
    rw [hsort]
    unfold accumulateStreams
    rw [foldl_objAssign_keyCount (outgoing ++ incoming) [] hbase k]
    rw [if_pos]
    exact List.any_eq_true.mpr ⟨(k, v), hmem, by simp⟩

/-- Witness for `get_direction_all_dedups`: a concrete wallet that is both
sender and recipient of the stream at address `A` sees that stream exactly
once in the result. -/
theorem get_direction_all_dedups_witness :
    (("A", (⟨200, false⟩ : SolanaContract)) ∈
        ([("B", (⟨100, false⟩ : SolanaContract)), ("A", ⟨200, false⟩)] ++
          [("A", (⟨200, false⟩ : SolanaContract))])) ∧
      keyCount (getDirectionAll [("B", ⟨100, false⟩), ("A", ⟨200, false⟩)]
        [("A", ⟨200, false⟩)] StreamTypeFilter.all) "A" = 1 :=
  ⟨by decide,
    (get_direction_all_dedups [("B", ⟨100, false⟩), ("A", ⟨200, false⟩)]
          [("A", ⟨200, false⟩)]).2.2
      "A" ⟨200, false⟩ (by decide)⟩

/-- C2 counterexample: the wallet is sender of the streams at `B`
(start 100) and `A` (start 200) and recipient of the self-stream `A`; `get`
with direction `all` returns the `A` entry ONCE (not twice — the
address-keyed accumulation de-duplicates the union), and the returned list
(`B` before `A`, starts 100 then 200) is NOT sorted by `start`
descending. -/
theorem get_direction_all_counterexample :
    keyCount (getDirectionAll [("B", ⟨100, false⟩), ("A", ⟨200, false⟩)]
        [("A", ⟨200, false⟩)] StreamTypeFilter.all) "A" = 1 ∧
      descByStart (getDirectionAll [("B", ⟨100, false⟩), ("A", ⟨200, false⟩)]
        [("A", ⟨200, false⟩)] StreamTypeFilter.all) = false := by
  decide

/- ### AccountCodec constructors and the UnlockCalculator -/

/-- Fee sub-record of an Aptos `StreamResource` (decimal strings modelled
by their integer values). -/
structure AptosFees where
  streamflow_fee : ℕ
  streamflow_fee_percentage : ℕ
  streamflow_fee_withdrawn : ℕ
deriving DecidableEq

/-- Meta sub-record of an Aptos `StreamResource`. -/
structure AptosMeta where
  automatic_withdrawal : Bool
  can_topup : Bool
  can_update_rate : Bool
  cancelable_by_recipient : Bool
  cancelable_by_sender : Bool
  contract_name : String
  pausable : Bool
  transferable_by_recipient : Bool
  transferable_by_sender : Bool
  withdrawal_frequency : ℕ
  closed : Bool
deriving DecidableEq

/-- Embedding of the Aptos `StreamResource` interface: decimal-string
numeric fields are modelled by their integer values (the constructor's
`parseInt` is absorbed into the model) and the `contract_signer_cap`
account is dropped (never read by the constructor).  Note the resource
carries NO cliff timestamp field — only `cliff_amount`. -/
structure StreamResource where
  amount : ℕ
  amount_per_period : ℕ
  canceled_at : ℕ
  cliff_amount : ℕ
  closed : Bool
  created : ℕ
  current_pause_start : ℕ
  end_ : ℕ
  fees : AptosFees
  funds_unlocked_at_last_rate_change : ℕ
  last_rate_change_time : ℕ
  last_withdrawn_at : ℕ
  meta : AptosMeta
  pause_cumulative : ℕ
  period : ℕ
  recipient : String
  sender : String
  start : ℕ
  withdrawn : ℕ
deriving DecidableEq

/-- Model of the Aptos `Contract` class (the application-level Stream
record); `end` is spelled `end_` because `end` is reserved. -/
structure Contract where
  magic : ℕ
  version : ℕ
  createdAt : ℕ
  withdrawnAmount : ℕ
  canceledAt : ℕ
  end_ : ℕ
  lastWithdrawnAt : ℕ
  sender : String
  senderTokens : String
  recipient : String
  recipientTokens : String
  mint : String
  escrowTokens : String
  streamflowTreasury : String
  streamflowTreasuryTokens : String
  streamflowFeeTotal : ℕ
  streamflowFeeWithdrawn : ℕ
  streamflowFeePercent : ℚ
  partnerFeeTotal : ℕ
  partnerFeeWithdrawn : ℕ
  partnerFeePercent : ℚ
  partner : String
  partnerTokens : String
  start : ℕ
  depositedAmount : ℕ
  period : ℕ
  amountPerPeriod : ℕ
  cliff : ℕ
  cliffAmount : ℕ
  cancelableBySender : Bool
  cancelableByRecipient : Bool
  automaticWithdrawal : Bool
  transferableBySender : Bool
  transferableByRecipient : Bool
  canTopup : Bool
  name : String
  withdrawalFrequency : ℕ
  closed : Bool
  currentPauseStart : ℕ
  pauseCumulative : ℕ
  lastRateChangeTime : ℕ
  fundsUnlockedAtLastRateChange : ℕ
deriving DecidableEq

/-- Embedding of the Aptos `Contract` constructor (lines 1092-1136), field
assignment by field assignment; the hex-to-utf8 decoding of the contract
name is abstracted to the decoded text. -/
def Contract.ofResource (stream : StreamResource) (tokenId : String) :
    Contract :=
  { magic := 0
    version := 0
    createdAt := stream.created
    withdrawnAmount := stream.withdrawn
    canceledAt := stream.canceled_at
    end_ := stream.end_
    lastWithdrawnAt := stream.last_withdrawn_at
    sender := stream.sender
    senderTokens := stream.sender
    recipient := stream.recipient
    recipientTokens := stream.recipient
    mint := tokenId
    escrowTokens := ""
    streamflowTreasury := ""
    streamflowTreasuryTokens := ""
    streamflowFeeTotal := 0
    streamflowFeeWithdrawn := 0
    streamflowFeePercent := (stream.fees.streamflow_fee_percentage : ℚ) / 10000
    partnerFeeTotal := 0
    partnerFeeWithdrawn := 0
    partnerFeePercent := 0
    partner := ""
    partnerTokens := ""
    start := stream.start
    depositedAmount := stream.amount
    period := stream.period
    amountPerPeriod := stream.amount_per_period
    cliff := stream.start
    cliffAmount := stream.cliff_amount
    cancelableBySender := stream.meta.cancelable_by_sender
    cancelableByRecipient := stream.meta.cancelable_by_recipient
    automaticWithdrawal := stream.meta.automatic_withdrawal
    transferableBySender := stream.meta.transferable_by_sender
    transferableByRecipient := stream.meta.transferable_by_recipient
    canTopup := stream.meta.can_topup
    name := stream.meta.contract_name
    withdrawalFrequency := stream.meta.withdrawal_frequency
    closed := stream.meta.closed
    currentPauseStart := stream.current_pause_start
    pauseCumulative := stream.pause_cumulative
    lastRateChangeTime := stream.last_rate_change_time
    fundsUnlockedAtLastRateChange := stream.funds_unlocked_at_last_rate_change }

/-- Fee sub-record of an EVM `StreamAbiResult` (on-chain integers modelled
over `ℕ`). -/
structure EvmFees where
  streamflow_fee_percentage : ℕ
  streamflow_fee : ℕ
  streamflow_fee_withdrawn : ℕ
  partner_fee_percentage : ℕ
  partner_fee : ℕ
  partner_fee_withdrawn : ℕ
  tx_fee : ℕ
deriving DecidableEq

/-- Meta sub-record of an EVM `StreamAbiResult`. -/
structure EvmMeta where
  automatic_withdrawal : Bool
  can_topup : Bool
  can_update_rate : Bool
  cancelable_by_recipient : Bool
  cancelable_by_sender : Bool
  contract_name : String
  pausable : Bool
  transferable_by_recipient : Bool
  transferable_by_sender : Bool
  withdrawal_frequency : ℕ
deriving DecidableEq

/-- Embedding of the EVM `StreamAbiResult` interface.  Note it carries NO
cliff timestamp field — only `cliff_amount`. -/
structure StreamAbiResult where
  amount : ℕ
  amount_per_period : ℕ
  canceled_at : ℕ
  cliff_amount : ℕ
  closed : Bool
  created : ℕ
  current_pause_start : ℕ
  end_ : ℕ
  fees : EvmFees
  funds_unlocked_at_last_rate_change : ℕ
  last_rate_change_time : ℕ
  last_withdrawn_at : ℕ
  meta : EvmMeta
  pause_cumulative : ℕ
  period : ℕ
  recipient : String
  sender : String
  partner : String
  start : ℕ
  token : String
  withdrawn : ℕ
deriving DecidableEq

/-- Stream kind of a decoded contract. -/
inductive StreamKind where
  | stream
  | vesting
deriving DecidableEq

/-- Modelled from the spec: `buildStreamType` (common contract-utils
module, not among the sources) classifies on the `canTopup` flag —
`stream` when topuppable, `vesting` when not (§4.5). -/
def buildStreamType (canTopup : Bool) : StreamKind :=
  if canTopup then StreamKind.stream else StreamKind.vesting

/-- Model of the `EvmContract` class. -/
structure EvmContract where
  magic : ℕ
  version : ℕ
  createdAt : ℕ
  withdrawnAmount : ℕ
  canceledAt : ℕ
  end_ : ℕ
  lastWithdrawnAt : ℕ
  sender : String
  senderTokens : String
  recipient : String
  recipientTokens : String
  mint : String
  escrowTokens : String
  streamflowTreasury : String
  streamflowTreasuryTokens : String
  streamflowFeeTotal : ℕ
  streamflowFeeWithdrawn : ℕ
  streamflowFeePercent : ℚ
  partnerFeeTotal : ℕ
  partnerFeeWithdrawn : ℕ
  partnerFeePercent : ℚ
  partner : String
  partnerTokens : String
  start : ℕ
  depositedAmount : ℕ
  period : ℕ
  amountPerPeriod : ℕ
  cliff : ℕ
  cliffAmount : ℕ
  cancelableBySender : Bool
  cancelableByRecipient : Bool
  automaticWithdrawal : Bool
  transferableBySender : Bool
  transferableByRecipient : Bool
  canTopup : Bool
  name : String
  withdrawalFrequency : ℕ
  closed : Bool
  currentPauseStart : ℕ
  pauseCumulative : ℕ
  lastRateChangeTime : ℕ
  fundsUnlockedAtLastRateChange : ℕ
  type : StreamKind
deriving DecidableEq

/-- Embedding of the `EvmContract` constructor (evm/types.ts lines
143-187), field assignment by field assignment; `.toNumber()` and
`.toString()` conversions are absorbed into the `ℕ` model and the
`toLowerCase` normalization of the token address is kept. -/
def EvmContract.ofAbi (stream : StreamAbiResult) : EvmContract :=
  { magic := 0
    version := 0
    createdAt := stream.created
    withdrawnAmount := stream.withdrawn
    canceledAt := stream.canceled_at
    end_ := stream.end_
    lastWithdrawnAt := stream.last_withdrawn_at
    sender := stream.sender
    senderTokens := stream.sender
    recipient := stream.recipient
    recipientTokens := stream.recipient
    mint := stream.token.toLower
    escrowTokens := ""
    streamflowTreasury := ""
    streamflowTreasuryTokens := ""
    streamflowFeeTotal := stream.fees.streamflow_fee
    streamflowFeeWithdrawn := stream.fees.streamflow_fee_withdrawn
    streamflowFeePercent := (stream.fees.streamflow_fee_percentage : ℚ) / 10000
    partnerFeeTotal := 0
    partnerFeeWithdrawn := 0
    partnerFeePercent := 0
    partner := ""
    partnerTokens := ""
    start := stream.start
    depositedAmount := stream.amount
    period := stream.period
    amountPerPeriod := stream.amount_per_period
    cliff := stream.start
    cliffAmount := stream.cliff_amount
    cancelableBySender := stream.meta.cancelable_by_sender
    cancelableByRecipient := stream.meta.cancelable_by_recipient
    automaticWithdrawal := stream.meta.automatic_withdrawal
    transferableBySender := stream.meta.transferable_by_sender
    transferableByRecipient := stream.meta.transferable_by_recipient
    canTopup := stream.meta.can_topup
    name := stream.meta.contract_name
    withdrawalFrequency := stream.meta.withdrawal_frequency
    closed := stream.closed
    currentPauseStart := stream.current_pause_start
    pauseCumulative := stream.pause_cumulative
    lastRateChangeTime := stream.last_rate_change_time
    fundsUnlockedAtLastRateChange := stream.funds_unlocked_at_last_rate_change
    type := buildStreamType stream.meta.can_topup }

/-- C10: every Stream built by the Aptos constructor or the EVM
constructor has `cliff` equal to `start` (neither backend record even
carries a cliff timestamp to read), while `cliffAmount` is taken from the
backend's `cliff_amount` field. -/
theorem cliff_equals_start (r : StreamResource) (tokenId : String)
    (a : StreamAbiResult) :
    (Contract.ofResource r tokenId).cliff = (Contract.ofResource r tokenId).start ∧
      (Contract.ofResource r tokenId).cliffAmount = r.cliff_amount ∧
      (EvmContract.ofAbi a).cliff = (EvmContract.ofAbi a).start ∧
      (EvmContract.ofAbi a).cliffAmount = a.cliff_amount :=
  ⟨rfl, rfl, rfl, rfl⟩

/-- Modelled from the spec: `calculateUnlocked` (the common contract-utils
module is not among the sources) per §4.2, restricted to the nine
parameters the source delegations pass (solana/StreamClient.ts lines
1138-1150 and evm/types.ts lines 189-194) — the cancellation/closed
handling of §4.2 step 1 reads fields the delegation does not forward, so
the effective time is the caller's timestamp: at or past `end` everything
is unlocked; before the cliff nothing is; `period = 0` is one-shot; after a
rate change the baseline is the checkpoint amount and elapsed periods count
from the later of cliff and checkpoint time; the total is capped at the
deposited amount and negative elapsed time clamps to zero (`ℕ`
subtraction). -/
def calculateUnlocked (depositedAmount : ℕ) (cliff : ℕ) (cliffAmount : ℕ)
    (end_ : ℕ) (currentTimestamp : ℕ) (lastRateChangeTime : ℕ) (period : ℕ)
    (amountPerPeriod : ℕ) (fundsUnlockedAtLastRateChange : ℕ) : ℕ :=
  if end_ ≤ currentTimestamp then depositedAmount
  else if currentTimestamp < cliff then 0
  else if period = 0 then depositedAmount
  else
    let referencePoint :=
      if cliff < lastRateChangeTime then lastRateChangeTime else cliff
    let baseline :=
      if 0 < lastRateChangeTime then fundsUnlockedAtLastRateChange
      else cliffAmount
    let elapsedPeriods := (currentTimestamp - referencePoint) / period
    min (baseline + elapsedPeriods * amountPerPeriod) depositedAmount

/-- Embedding of `Contract.unlocked` (solana/StreamClient.ts lines
1138-1150): the delegation passing the nine stream fields plus the
timestamp. -/
def Contract.unlocked (c : Contract) (currentTimestamp : ℕ) : ℕ :=
  calculateUnlocked c.depositedAmount c.cliff c.cliffAmount c.end_
    currentTimestamp c.lastRateChangeTime c.period c.amountPerPeriod
    c.fundsUnlockedAtLastRateChange

/-- Embedding of `EvmContract.unlocked` (evm/types.ts lines 189-194): the
spread delegation passing the same stream fields plus the timestamp. -/
def EvmContract.unlocked (c : EvmContract) (currentTimestamp : ℕ) : ℕ :=
  calculateUnlocked c.depositedAmount c.cliff c.cliffAmount c.end_
    currentTimestamp c.lastRateChangeTime c.period c.amountPerPeriod
    c.fundsUnlockedAtLastRateChange

/-- Helper: the unlock calculation never exceeds the deposited amount. -/
theorem calculateUnlocked_le (depositedAmount cliff cliffAmount end_
    currentTimestamp lastRateChangeTime period amountPerPeriod
    fundsUnlockedAtLastRateChange : ℕ) :
    calculateUnlocked depositedAmount cliff cliffAmount end_ currentTimestamp
        lastRateChangeTime period amountPerPeriod
        fundsUnlockedAtLastRateChange ≤ depositedAmount := by
  unfold calculateUnlocked
  split_ifs <;> simp [Nat.zero_le, min_le_right]

/-- C8: for every Stream (Aptos-decoded or EVM-decoded) and every
timestamp `t`, however large, the unlocked amount never exceeds the
deposited amount. -/
theorem unlocked_le_deposited (c : Contract) (e : EvmContract) (t : ℕ) :
    Contract.unlocked c t ≤ c.depositedAmount ∧
      EvmContract.unlocked e t ≤ e.depositedAmount :=
  ⟨calculateUnlocked_le c.depositedAmount c.cliff c.cliffAmount c.end_ t
      c.lastRateChangeTime c.period c.amountPerPeriod
      c.fundsUnlockedAtLastRateChange,
    calculateUnlocked_le e.depositedAmount e.cliff e.cliffAmount e.end_ t
      e.lastRateChangeTime e.period e.amountPerPeriod
      e.fundsUnlockedAtLastRateChange⟩

/- ### `create`: mint selection for associated token accounts -/

/-- The wrapped-SOL mint address (`NATIVE_MINT` of the SPL token
library). -/
def NATIVE_MINT : String := "So11111111111111111111111111111111111111112"

/-- Modelled from the spec: the ledger-wide constant treasury address (the
constants module is not among the sources; §9 describes it as a fixed
per-network configuration value — only its fixedness matters here). -/
def STREAMFLOW_TREASURY_PUBLIC_KEY : String := "streamflowTreasuryAddress"

/-- An associated token account, modelled by the (mint, owner) pair it is
derived from (the derivation `ata` of the utils module is an injective
external function of exactly these two arguments). -/
structure AtaAddress where
  mint : String
  owner : String
deriving DecidableEq

/-- Model of the associated-token-account derivation `ata(mint, owner)`. -/
def ata (mint owner : String) : AtaAddress :=
  ⟨mint, owner⟩

/-- The accounts the `create` flow resolves before building the creation
instruction (the instruction-internal accounts that do not depend on the
mint are omitted). -/
structure CreateAccounts where
  sender : String
  senderTokens : AtaAddress
  recipient : String
  recipientTokens : AtaAddress
  streamflowTreasuryTokens : AtaAddress
  partner : String
  partnerTokens : AtaAddress
  mint : String
deriving DecidableEq

/-- Embedding of the account resolution of `create` (solana/StreamClient.ts
lines 157-223): `mintPublicKey = isNative ? mint : NATIVE_MINT` drives
every associated-token-account derivation, the partner defaults to the
treasury, and the `mint` account handed to `createStreamInstruction` is
always the caller-supplied mint. -/
def createAccounts (mint : String) (sender : String) (recipient : String)
    (partner : Option String) (isNative : Bool) : CreateAccounts :=
  let mintPublicKey := if isNative then mint else NATIVE_MINT
  let partnerPublicKey :=
    match partner with
    | some p => p
    | none => STREAMFLOW_TREASURY_PUBLIC_KEY
  { sender := sender
    senderTokens := ata mintPublicKey sender
    recipient := recipient
    recipientTokens := ata mintPublicKey recipient
    streamflowTreasuryTokens := ata mintPublicKey STREAMFLOW_TREASURY_PUBLIC_KEY
    partner := partnerPublicKey
    partnerTokens := ata mintPublicKey partnerPublicKey
    mint := mint }

/-- C9: in every `create` call the mint used to derive the sender,
recipient, treasury and partner associated token accounts is the
caller-supplied mint exactly when `isNative` is true and `NATIVE_MINT`
exactly when `isNative` is false, while the mint account passed to the
creation instruction itself is always the caller-supplied mint. -/
theorem create_ata_mint_selection (mint sender recipient : String)
    (partner : Option String) (isNative : Bool) :
    (createAccounts mint sender recipient partner isNative).senderTokens.mint =
        (if isNative then mint else NATIVE_MINT) ∧
      (createAccounts mint sender recipient partner isNative).recipientTokens.mint =
        (if isNative then mint else NATIVE_MINT) ∧
      (createAccounts mint sender recipient partner isNative).streamflowTreasuryTokens.mint =
        (if isNative then mint else NATIVE_MINT) ∧
      (createAccounts mint sender recipient partner isNative).partnerTokens.mint =
        (if isNative then mint else NATIVE_MINT) ∧
      (createAccounts mint sender recipient partner isNative).mint = mint := by
  cases isNative <;> exact ⟨rfl, rfl, rfl, rfl, rfl⟩
